import Mathlib

/-!
Verification of the pageserver datadir-mapping core against its
natural-language specification.

The definitions below are a shallow embedding of the Rust sources
`pgdatadir_mapping.rs`, `image_layer.rs` and `tenant_threads.rs`:
pure key-encoding functions become Lean functions on `Nat`-valued
fields, the transaction buffer (`DatadirTimelineWriter`) becomes
explicit state passing over an association list of pending updates,
fallible operations return `Option`, and machine-integer overflow is
made explicit with `% 2^w` where the source relies on wrapping.
-/

/-- A composite key, mirroring `Key` from `repository.rs` (that file is not
part of the sources at hand; the field layout `(u8, u32, u32, u32, u8, u32)`
and the total order are modelled from the spec: serialized big-endian so
that lexicographic byte order equals field-major order). -/
structure Key where
  field1 : Nat
  field2 : Nat
  field3 : Nat
  field4 : Nat
  field5 : Nat
  field6 : Nat
deriving DecidableEq, Repr

/-- Modelled from the spec: keys are totally ordered by field-major
lexicographic order (big-endian serialization makes byte order equal
field-major order). -/
def keyLt (a b : Key) : Prop :=
  a.field1 < b.field1 ∨ (a.field1 = b.field1 ∧
    (a.field2 < b.field2 ∨ (a.field2 = b.field2 ∧
      (a.field3 < b.field3 ∨ (a.field3 = b.field3 ∧
        (a.field4 < b.field4 ∨ (a.field4 = b.field4 ∧
          (a.field5 < b.field5 ∨ (a.field5 = b.field5 ∧
            a.field6 < b.field6)))))))))

instance (a b : Key) : Decidable (keyLt a b) := by
  unfold keyLt; infer_instance

/-- Non-strict key order. -/
def keyLe (a b : Key) : Prop := keyLt a b ∨ a = b

instance (a b : Key) : Decidable (keyLe a b) := by
  unfold keyLe; infer_instance

/-- A half-open key range `[start, end)`, mirroring Rust's `Range<Key>`. -/
structure KeyRange where
  start : Key
  stop : Key
deriving DecidableEq, Repr

/-- `Range::contains` under the key order: `start ≤ k < stop`. -/
def inKeyRange (r : KeyRange) (k : Key) : Prop := keyLe r.start k ∧ keyLt k r.stop

instance (r : KeyRange) (k : Key) : Decidable (inKeyRange r k) := by
  unfold inKeyRange; infer_instance

/-- `RelTag`: identifies a relation fork (`spcnode`, `dbnode`, `relnode` are
`u32`, `forknum` is `u8`). -/
structure RelTag where
  spcnode : Nat
  dbnode : Nat
  relnode : Nat
  forknum : Nat
deriving DecidableEq, Repr

/-- The three SLRU kinds. -/
inductive SlruKind where
  | Clog
  | MultiXactMembers
  | MultiXactOffsets
deriving DecidableEq, Repr

/-- The `u8` discriminant stored in `field2` for each SLRU kind. -/
def slruKindToU8 : SlruKind → Nat
  | SlruKind.Clog => 0x00
  | SlruKind.MultiXactMembers => 0x01
  | SlruKind.MultiXactOffsets => 0x02

/-- `DBDIR_KEY`. -/
def DBDIR_KEY : Key := ⟨0x00, 0, 0, 0, 0, 0⟩

/-- `TWOPHASEDIR_KEY`. -/
def TWOPHASEDIR_KEY : Key := ⟨0x02, 0, 0, 0, 0, 0⟩

/-- `CONTROLFILE_KEY`. -/
def CONTROLFILE_KEY : Key := ⟨0x03, 0, 0, 0, 0, 0⟩

/-- `CHECKPOINT_KEY`. -/
def CHECKPOINT_KEY : Key := ⟨0x03, 0, 0, 0, 0, 1⟩

/-- `rel_block_to_key`. -/
def rel_block_to_key (rel : RelTag) (blknum : Nat) : Key :=
  ⟨0x00, rel.spcnode, rel.dbnode, rel.relnode, rel.forknum, blknum⟩

/-- `rel_dir_to_key`. -/
def rel_dir_to_key (spcnode dbnode : Nat) : Key :=
  ⟨0x00, spcnode, dbnode, 0, 0, 1⟩

/-- `rel_size_to_key`. -/
def rel_size_to_key (rel : RelTag) : Key :=
  ⟨0x00, rel.spcnode, rel.dbnode, rel.relnode, rel.forknum, 0xffffffff⟩

/-- `slru_dir_to_key`. -/
def slru_dir_to_key (kind : SlruKind) : Key :=
  ⟨0x01, slruKindToU8 kind, 0, 0, 0, 0⟩

/-- `slru_block_to_key`. -/
def slru_block_to_key (kind : SlruKind) (segno blknum : Nat) : Key :=
  ⟨0x01, slruKindToU8 kind, 1, segno, 0, blknum⟩

/-- `rel_key_range`. The end bound's `field5` is `rel.forknum + 1` on a `u8`;
in the source this addition can wrap (release-mode semantics), which we make
explicit with `% 256`. -/
def rel_key_range (rel : RelTag) : KeyRange :=
  ⟨⟨0x00, rel.spcnode, rel.dbnode, rel.relnode, rel.forknum, 0⟩,
   ⟨0x00, rel.spcnode, rel.dbnode, rel.relnode, (rel.forknum + 1) % 256, 0⟩⟩

/-- `slru_segment_size_to_key`. -/
def slru_segment_size_to_key (kind : SlruKind) (segno : Nat) : Key :=
  ⟨0x01, slruKindToU8 kind, 1, segno, 0, 0xffffffff⟩

/-- `slru_segment_key_range`: note the bounds put `segno` in `field3`
with `field4 = 0`, unlike `slru_block_to_key`/`slru_segment_size_to_key`. -/
def slru_segment_key_range (kind : SlruKind) (segno : Nat) : KeyRange :=
  ⟨⟨0x01, slruKindToU8 kind, segno, 0, 0, 0⟩,
   ⟨0x01, slruKindToU8 kind, segno, 0, 1, 0⟩⟩

/-- `relmap_file_key`. -/
def relmap_file_key (spcnode dbnode : Nat) : Key :=
  ⟨0x00, spcnode, dbnode, 0, 0, 0⟩

/-- `twophase_file_key`. -/
def twophase_file_key (xid : Nat) : Key :=
  ⟨0x02, 0, 0, 0, 0, xid⟩

/-- `twophase_key_range`: `xid.overflowing_add(1)` on a `u32` yields
`(xid + 1) % 2^32` together with the overflow flag; the end bound's
`field5` is 1 exactly when the increment overflowed. -/
def twophase_key_range (xid : Nat) : KeyRange :=
  ⟨⟨0x02, 0, 0, 0, 0, xid⟩,
   ⟨0x02, 0, 0, 0, if xid + 1 ≥ 2 ^ 32 then 1 else 0, (xid + 1) % 2 ^ 32⟩⟩

/-- `dbdir_key_range`. -/
def dbdir_key_range (spcnode dbnode : Nat) : KeyRange :=
  ⟨⟨0x00, spcnode, dbnode, 0, 0, 0⟩,
   ⟨0x00, spcnode, dbnode, 0xffffffff, 0xff, 0xffffffff⟩⟩

/-! ## Values, directory blobs and serialization

`Value = Image | WalRecord` mirrors `repository.rs`'s `Value`; `ZenithWalRecord`
is opaque to this code and modelled as a `Nat` payload.  Directory contents are
`HashSet`s serialized with `zenith_utils::bin_ser` (not part of the sources at
hand); serialization is modelled from the spec as an injective self-describing
blob: a `Blob` either holds raw bytes or one of the four directory sets, and
deserialization is the partial inverse that fails on a blob of the wrong shape. -/

/-- A stored byte string: raw bytes, or the serialized form of one of the four
directory sets. -/
inductive Blob where
  | raw (bytes : List Nat)
  | dbDir (dbs : Finset (Nat × Nat))
  | twoPhaseDir (xids : Finset Nat)
  | relDir (rels : Finset (Nat × Nat))
  | slruDir (segments : Finset Nat)
deriving DecidableEq

/-- `Value`: a page image or an opaque WAL record. -/
inductive Value where
  | Image (img : Blob)
  | WalRecord (rec : Nat)
deriving DecidableEq

/-- `DbDirectory::des`. -/
def desDbDirectory : Blob → Option (Finset (Nat × Nat))
  | Blob.dbDir dbs => some dbs
  | _ => none

/-- `TwoPhaseDirectory::des`. -/
def desTwoPhaseDirectory : Blob → Option (Finset Nat)
  | Blob.twoPhaseDir xids => some xids
  | _ => none

/-- `RelDirectory::des`. -/
def desRelDirectory : Blob → Option (Finset (Nat × Nat))
  | Blob.relDir rels => some rels
  | _ => none

/-- `SlruSegmentDirectory::des`. -/
def desSlruSegmentDirectory : Blob → Option (Finset Nat)
  | Blob.slruDir segments => some segments
  | _ => none

/-- `u32::to_le_bytes`. -/
def u32_to_le_bytes (n : Nat) : List Nat :=
  [n % 256, n / 256 % 256, n / 65536 % 256, n / 16777216 % 256]

/-- `bytes::Buf::get_u32_le` on a raw blob: combine the first four bytes
little-endian; fails (panics in the source) when fewer than four bytes are
available or the blob is not a raw byte string. -/
def blobGetU32le : Blob → Option Nat
  | Blob.raw (b0 :: b1 :: b2 :: b3 :: _) =>
      some (b0 + b1 * 256 + b2 * 65536 + b3 * 16777216)
  | _ => none

/-- The 8 KiB all-zeros page (`ZERO_PAGE`). -/
def ZERO_PAGE : Blob := Blob.raw (List.replicate 8192 0)

/-- The lower-level timeline's `get(key, lsn)`, the abstraction the datadir
layer is built on (`Repository::Timeline` is an external collaborator):
a partial map from key and LSN to the stored bytes. -/
def Tline : Type := Key → Nat → Option Blob

/-! ## Timeline read path (`DatadirTimeline` GET functions)

Each read function is embedded together with the list of timeline keys it
reads, in order, so that claims about which keys are (not) touched are
statable.  The first component is the function's `Result` as an `Option`. -/

/-- `pg_constants::FSM_FORKNUM` (modelled from the spec's fork list:
main = 0, FSM = 1, visibility map = 2, init = 3; `pg_constants` is not part
of the sources at hand). -/
def FSM_FORKNUM : Nat := 1

/-- `pg_constants::VISIBILITYMAP_FORKNUM` (modelled from the spec, see
`FSM_FORKNUM`). -/
def VISIBILITYMAP_FORKNUM : Nat := 2

/-- `get_rel_exists`, paired with the timeline keys it reads: fetch the
rel directory blob for the tag's database and test membership of
`(relnode, forknum)`. -/
def get_rel_existsT (tl : Tline) (tag : RelTag) (lsn : Nat) : Option Bool × List Key :=
  let key := rel_dir_to_key tag.spcnode tag.dbnode
  match tl key lsn with
  | none => (none, [key])
  | some buf =>
    match desRelDirectory buf with
    | none => (none, [key])
    | some rels => (some (decide ((tag.relnode, tag.forknum) ∈ rels)), [key])

/-- The tail of `get_rel_size`: read the relation's size key and decode it as
a little-endian `u32`; `tr` is the trace accumulated so far. -/
def relSizeRead (tl : Tline) (tag : RelTag) (lsn : Nat) (tr : List Key) : Option Nat × List Key :=
  let key := rel_size_to_key tag
  match tl key lsn with
  | none => (none, tr ++ [key])
  | some buf => (blobGetU32le buf, tr ++ [key])

/-- `get_rel_size`, paired with the timeline keys it reads: a non-existent
FSM or visibility-map fork reports size 0 without reading the size key;
otherwise the size key is read and decoded as a little-endian `u32`. -/
def get_rel_sizeT (tl : Tline) (tag : RelTag) (lsn : Nat) : Option Nat × List Key :=
  if tag.forknum = FSM_FORKNUM ∨ tag.forknum = VISIBILITYMAP_FORKNUM then
    match get_rel_existsT tl tag lsn with
    | (none, tr) => (none, tr)
    | (some false, tr) => (some 0, tr)
    | (some true, tr) => relSizeRead tl tag lsn tr
  else
    relSizeRead tl tag lsn []

/-- `get_rel_page_at_lsn`, paired with the timeline keys it reads: look up the
relation size; a block at or beyond the end is answered with `ZERO_PAGE`
without reading further; otherwise the block key is read from the timeline. -/
def get_rel_page_at_lsnT (tl : Tline) (tag : RelTag) (blknum lsn : Nat) :
    Option Blob × List Key :=
  match get_rel_sizeT tl tag lsn with
  | (none, tr) => (none, tr)
  | (some nblocks, tr) =>
    if nblocks ≤ blknum then
      (some ZERO_PAGE, tr)
    else
      let key := rel_block_to_key tag blknum
      (tl key lsn, tr ++ [key])

/-! ## Transaction buffer (`DatadirTimelineWriter`) -/

/-- The pending state of a `DatadirTimelineWriter`: the target LSN, the map of
pending updates (`HashMap<Key, Value>`, here an association list with
overwrite-on-insert), and the ordered list of pending range deletions. -/
structure WriterState where
  lsn : Nat
  pendingUpdates : List (Key × Value)
  pendingDeletions : List KeyRange
deriving DecidableEq

/-- `HashMap::get` over the association list. -/
def lookupKV : List (Key × Value) → Key → Option Value
  | [], _ => none
  | (k', v') :: rest, k => if k' = k then some v' else lookupKV rest k

/-- `HashMap::insert` over the association list: overwrite the existing
binding or append a new one. -/
def upsertKV : List (Key × Value) → Key → Value → List (Key × Value)
  | [], k, v => [(k, v)]
  | (k', v') :: rest, k, v =>
    if k' = k then (k, v) :: rest else (k', v') :: upsertKV rest k v

/-- `DatadirTimelineWriter::put`: record a pending update (last write wins). -/
def writer_put (st : WriterState) (key : Key) (val : Value) : WriterState :=
  { st with pendingUpdates := upsertKV st.pendingUpdates key val }

/-- `DatadirTimelineWriter::delete`: append a pending range deletion. -/
def writer_delete (st : WriterState) (keyRange : KeyRange) : WriterState :=
  { st with pendingDeletions := st.pendingDeletions ++ [keyRange] }

/-- `DatadirTimelineWriter::get`: read through the buffer.  A pending `Image`
is returned directly; a pending `WalRecord` is an error; otherwise fall back
to the timeline at its current last-record LSN (`lastLsn`).  Pending
deletions are not consulted. -/
def writer_get (tl : Tline) (lastLsn : Nat) (st : WriterState) (key : Key) : Option Blob :=
  match lookupKV st.pendingUpdates key with
  | some (Value.Image img) => some img
  | some (Value.WalRecord _) => none
  | none => tl key lastLsn

/-- `put_relmap_file`: read the db directory through the buffer, add
`(spcnode, dbnode)` if it is not already present (re-writing the directory
only when something changed), then put the relmap file image. -/
def put_relmap_file (tl : Tline) (lastLsn : Nat) (st : WriterState)
    (spcnode dbnode : Nat) (img : Blob) : Option WriterState :=
  match writer_get tl lastLsn st DBDIR_KEY with
  | none => none
  | some buf =>
    match desDbDirectory buf with
    | none => none
    | some dbs =>
      let st' := if (spcnode, dbnode) ∈ dbs then st else
        writer_put st DBDIR_KEY (Value.Image (Blob.dbDir (insert (spcnode, dbnode) dbs)))
      some (writer_put st' (relmap_file_key spcnode dbnode) (Value.Image img))

/-- `put_twophase_file`: fail if `xid` is already in the two-phase directory;
otherwise write the updated directory and the file image. -/
def put_twophase_file (tl : Tline) (lastLsn : Nat) (st : WriterState)
    (xid : Nat) (img : Blob) : Option WriterState :=
  match writer_get tl lastLsn st TWOPHASEDIR_KEY with
  | none => none
  | some buf =>
    match desTwoPhaseDirectory buf with
    | none => none
    | some xids =>
      if xid ∈ xids then none
      else
        let st' := writer_put st TWOPHASEDIR_KEY
          (Value.Image (Blob.twoPhaseDir (insert xid xids)))
        some (writer_put st' (twophase_file_key xid) (Value.Image img))

/-- `put_rel_creation`: fail if `(relnode, forknum)` is already in the rel
directory; otherwise write the updated directory and the relation's size
entry (little-endian `u32 nblocks`). -/
def put_rel_creation (tl : Tline) (lastLsn : Nat) (st : WriterState)
    (rel : RelTag) (nblocks : Nat) : Option WriterState :=
  let dirKey := rel_dir_to_key rel.spcnode rel.dbnode
  match writer_get tl lastLsn st dirKey with
  | none => none
  | some buf =>
    match desRelDirectory buf with
    | none => none
    | some rels =>
      if (rel.relnode, rel.forknum) ∈ rels then none
      else
        let st' := writer_put st dirKey
          (Value.Image (Blob.relDir (insert (rel.relnode, rel.forknum) rels)))
        some (writer_put st' (rel_size_to_key rel)
          (Value.Image (Blob.raw (u32_to_le_bytes nblocks))))

/-- `put_slru_segment_creation`: fail if `segno` is already in the SLRU
directory for `kind`; otherwise write the updated directory and the segment's
size entry. -/
def put_slru_segment_creation (tl : Tline) (lastLsn : Nat) (st : WriterState)
    (kind : SlruKind) (segno nblocks : Nat) : Option WriterState :=
  let dirKey := slru_dir_to_key kind
  match writer_get tl lastLsn st dirKey with
  | none => none
  | some buf =>
    match desSlruSegmentDirectory buf with
    | none => none
    | some segments =>
      if segno ∈ segments then none
      else
        let st' := writer_put st dirKey
          (Value.Image (Blob.slruDir (insert segno segments)))
        some (writer_put st' (slru_segment_size_to_key kind segno)
          (Value.Image (Blob.raw (u32_to_le_bytes nblocks))))

/-- `drop_dbdir`: remove `(spcnode, dbnode)` from the db directory if present
(re-writing the directory only in that case; a missing entry only warns), then
range-delete everything under the database. -/
def drop_dbdir (tl : Tline) (lastLsn : Nat) (st : WriterState)
    (spcnode dbnode : Nat) : Option WriterState :=
  match writer_get tl lastLsn st DBDIR_KEY with
  | none => none
  | some buf =>
    match desDbDirectory buf with
    | none => none
    | some dbs =>
      let st' := if (spcnode, dbnode) ∈ dbs then
          writer_put st DBDIR_KEY
            (Value.Image (Blob.dbDir (dbs.erase (spcnode, dbnode))))
        else st
      some (writer_delete st' (dbdir_key_range spcnode dbnode))

/-- `put_rel_drop`: remove `(relnode, forknum)` from the rel directory if
present (a missing entry only warns), then range-delete the relation's size
entry and blocks. -/
def put_rel_drop (tl : Tline) (lastLsn : Nat) (st : WriterState)
    (rel : RelTag) : Option WriterState :=
  let dirKey := rel_dir_to_key rel.spcnode rel.dbnode
  match writer_get tl lastLsn st dirKey with
  | none => none
  | some buf =>
    match desRelDirectory buf with
    | none => none
    | some rels =>
      let st' := if (rel.relnode, rel.forknum) ∈ rels then
          writer_put st dirKey
            (Value.Image (Blob.relDir (rels.erase (rel.relnode, rel.forknum))))
        else st
      some (writer_delete st' (rel_key_range rel))

/-- `drop_slru_segment`: remove `segno` from the SLRU directory (a missing
entry only warns; the directory is re-written unconditionally), then
range-delete the segment. -/
def drop_slru_segment (tl : Tline) (lastLsn : Nat) (st : WriterState)
    (kind : SlruKind) (segno : Nat) : Option WriterState :=
  let dirKey := slru_dir_to_key kind
  match writer_get tl lastLsn st dirKey with
  | none => none
  | some buf =>
    match desSlruSegmentDirectory buf with
    | none => none
    | some segments =>
      let st' := writer_put st dirKey
        (Value.Image (Blob.slruDir (segments.erase segno)))
      some (writer_delete st' (slru_segment_key_range kind segno))

/-- `drop_twophase_file`: remove `xid` from the two-phase directory (a missing
entry only warns; the directory is re-written unconditionally), then
range-delete the file. -/
def drop_twophase_file (tl : Tline) (lastLsn : Nat) (st : WriterState)
    (xid : Nat) : Option WriterState :=
  match writer_get tl lastLsn st TWOPHASEDIR_KEY with
  | none => none
  | some buf =>
    match desTwoPhaseDirectory buf with
    | none => none
    | some xids =>
      let st' := writer_put st TWOPHASEDIR_KEY
        (Value.Image (Blob.twoPhaseDir (xids.erase xid)))
      some (writer_delete st' (twophase_key_range xid))

/-! ## Image layer (`image_layer.rs`)

The on-disk bookfile is modelled as a partial map from chapter number to a
chapter blob (the `bookfile` crate is an external collaborator).  A chapter
blob is the serialized `Summary`, the serialized key-to-offset index, or raw
bytes; deserialization is the partial inverse, as for directories.  File
names are modelled from the spec as the `(key_range, lsn)` triple they
injectively encode (`filename.rs` is not part of the sources at hand). -/

/-- `Summary`: the layer's identity as stored in the SUMMARY chapter.
Tenant and timeline ids are opaque and modelled as `Nat`. -/
structure Summary where
  tenantid : Nat
  timelineid : Nat
  keyRange : KeyRange
  lsn : Nat
deriving DecidableEq

/-- A chapter of the bookfile. -/
inductive Chapter where
  | rawCh (bytes : List Nat)
  | summaryCh (s : Summary)
  | indexCh (idx : List (Key × Nat))
deriving DecidableEq

/-- `INDEX_CHAPTER`. -/
def INDEX_CHAPTER : Nat := 1

/-- `VALUES_CHAPTER`. -/
def VALUES_CHAPTER : Nat := 2

/-- `SUMMARY_CHAPTER`. -/
def SUMMARY_CHAPTER : Nat := 3

/-- The bookfile: chapter number to chapter contents. -/
def Book : Type := Nat → Option Chapter

/-- `Summary::des`. -/
def desSummary : Chapter → Option Summary
  | Chapter.summaryCh s => some s
  | _ => none

/-- `HashMap::des` for the INDEX chapter. -/
def desIndex : Chapter → Option (List (Key × Nat))
  | Chapter.indexCh idx => some idx
  | _ => none

/-- `ImageFileName`: a layer file name, modelled from the spec as the
`(key_range, lsn)` pair it encodes (`<keystart36>-<keyend36>__<lsn16>`,
an injective rendering). -/
structure ImageFileName where
  keyRange : KeyRange
  lsn : Nat
deriving DecidableEq

/-- `PathOrConf`: a handle constructed through the configured tenant path, or
from a bare path (debug loader), the latter carrying the on-disk file name. -/
inductive PathOrConf where
  | conf
  | path (fname : ImageFileName)
deriving DecidableEq

/-- The identity-carrying fields of an `ImageLayer` handle. -/
structure ImageLayer where
  pathOrConf : PathOrConf
  tenantid : Nat
  timelineid : Nat
  keyRange : KeyRange
  lsn : Nat
deriving DecidableEq

/-- `Summary::from(&ImageLayer)`: the summary derived from the handle's own
fields. -/
def expectedSummary (layer : ImageLayer) : Summary :=
  ⟨layer.tenantid, layer.timelineid, layer.keyRange, layer.lsn⟩

/-- `ImageLayer::layer_name`: the file name expected from the handle's
`key_range` and `lsn`. -/
def layer_name (layer : ImageLayer) : ImageFileName :=
  ⟨layer.keyRange, layer.lsn⟩

/-- `ImageLayer::new`: a handle built through the configured tenant path;
`key_range` and `lsn` come from the file name. -/
def imageLayerNew (tenantid timelineid : Nat) (fname : ImageFileName) : ImageLayer :=
  ⟨PathOrConf.conf, tenantid, timelineid, fname.keyRange, fname.lsn⟩

/-- `ImageLayer::new_for_path` (debug loader): read the SUMMARY chapter and
build a bare-path handle whose fields come from the in-file summary. -/
def imageLayerNewForPath (fname : ImageFileName) (book : Book) : Option ImageLayer :=
  match book SUMMARY_CHAPTER with
  | none => none
  | some ch =>
    match desSummary ch with
    | none => none
    | some s =>
      some ⟨PathOrConf.path fname, s.tenantid, s.timelineid, s.keyRange, s.lsn⟩

/-- `ImageLayer::load`, from the not-yet-loaded state: through the configured
tenant path, read the SUMMARY chapter and fail unless it equals the summary
derived from the handle; from a bare path, compare the file's name with the
name expected from the handle, a mismatch only printing a warning (returned
here as the `Bool` component).  On success read and deserialize the INDEX
chapter. -/
def imageLayerLoad (layer : ImageLayer) (book : Book) :
    Option (List (Key × Nat)) × Bool :=
  match layer.pathOrConf with
  | PathOrConf.conf =>
    match book SUMMARY_CHAPTER with
    | none => (none, false)
    | some ch =>
      match desSummary ch with
      | none => (none, false)
      | some actualSummary =>
        if actualSummary = expectedSummary layer then
          (match book INDEX_CHAPTER with
           | none => (none, false)
           | some ich => (desIndex ich, false))
        else
          (none, false)
  | PathOrConf.path actualFilename =>
    let warned := actualFilename ≠ layer_name layer
    match book INDEX_CHAPTER with
    | none => (none, decide warned)
    | some ich => (desIndex ich, decide warned)

/-! ## Per-tenant checkpoint loop (`tenant_threads.rs`)

The loop is embedded as a trace generator: tenant state over time is an
oracle `Nat → Bool` (`true` = `Active`, as observed by
`tenant_mgr::get_tenant_state` at a given instant), time advances by
`checkpoint_period` across each sleep, and recursion is bounded by fuel
(the thread runs unboundedly; every finite prefix of its behaviour is some
fuel's trace).  Failures of `get_repository_for_tenant` and
`checkpoint_iteration` are not modelled (they abort the loop with an error). -/

/-- An observable action of the checkpoint loop, paired with the instant at
which it happens. -/
inductive LoopAction where
  | checkState (active : Bool)
  | checkpoint (distance : Nat)
deriving DecidableEq

/-- `checkpoint_loop`: at each iteration the tenant state is observed at the
top of the loop; if it is not `Active` the loop exits; otherwise the thread
sleeps for `checkpoint_period` and then calls
`checkpoint_iteration(Distance(checkpoint_distance))` — without observing the
state again after the sleep. -/
def checkpoint_loop (state : Nat → Bool) (period distance : Nat) :
    Nat → Nat → List (Nat × LoopAction)
  | _, 0 => []
  | t, fuel + 1 =>
    if state t then
      (t, LoopAction.checkState true) ::
        (t + period, LoopAction.checkpoint distance) ::
          checkpoint_loop state period distance (t + period) fuel
    else
      [(t, LoopAction.checkState false)]

/-! ## Concrete fixtures used by witnesses and counterexamples -/

/-- A concrete timeline holding only the size entry (5 blocks, little-endian)
of relation `(0, 0, 1000, fork 0)`. -/
def tlC1 : Tline := fun k _ =>
  if k = rel_size_to_key ⟨0, 0, 1000, 0⟩ then some (Blob.raw [5, 0, 0, 0]) else none

/-- A concrete timeline holding all four directories: db `(0, 111)`,
two-phase xid 7, relation `(1000, fork 0)` under db `(0, 111)`, and
Clog segment 3. -/
def tlC3 : Tline := fun k _ =>
  if k = DBDIR_KEY then some (Blob.dbDir {(0, 111)})
  else if k = TWOPHASEDIR_KEY then some (Blob.twoPhaseDir {7})
  else if k = rel_dir_to_key 0 111 then some (Blob.relDir {(1000, 0)})
  else if k = slru_dir_to_key SlruKind.Clog then some (Blob.slruDir {3})
  else none

/-- A concrete timeline where relation `(0, 111, 1000, fork 0)` exists with
2 blocks and no FSM fork has been created. -/
def tlC7 : Tline := fun k _ =>
  if k = rel_dir_to_key 0 111 then some (Blob.relDir {(1000, 0)})
  else if k = rel_size_to_key ⟨0, 111, 1000, 0⟩ then some (Blob.raw [2, 0, 0, 0])
  else none

/-- A concrete image layer summary. -/
def sumC8 : Summary :=
  ⟨10, 20, ⟨⟨0, 0, 0, 0, 0, 0⟩, ⟨1, 0, 0, 0, 0, 0⟩⟩, 100⟩

/-- A concrete bookfile holding `sumC8` in its SUMMARY chapter and a one-entry
index in its INDEX chapter. -/
def bookC8 : Book := fun n =>
  if n = SUMMARY_CHAPTER then some (Chapter.summaryCh sumC8)
  else if n = INDEX_CHAPTER then some (Chapter.indexCh [(⟨0, 0, 0, 0, 0, 3⟩, 0)])
  else none

/-- The handle for `bookC8` built through the configured tenant path, with
fields agreeing with `sumC8`. -/
def layerC8 : ImageLayer :=
  ⟨PathOrConf.conf, 10, 20, ⟨⟨0, 0, 0, 0, 0, 0⟩, ⟨1, 0, 0, 0, 0, 0⟩⟩, 100⟩

/-- A bare-path handle for `bookC8` whose on-disk file name does not match
the name expected from the in-file summary. -/
def layerC8p : ImageLayer :=
  ⟨PathOrConf.path ⟨⟨⟨0, 0, 0, 0, 0, 0⟩, ⟨2, 0, 0, 0, 0, 0⟩⟩, 999⟩,
   10, 20, ⟨⟨0, 0, 0, 0, 0, 0⟩, ⟨1, 0, 0, 0, 0, 0⟩⟩, 100⟩

/-! ## Claims about the key encoding (C2, C4, C6) -/

/-- Claim C2, counterexample: at `blknum = 0xFFFFFFFF` the block key *equals*
the size key (so it is not strictly less), and at `forknum = 0xFF` the end
bound of `rel_key_range` wraps its `field5` to 0, so the range is empty and
contains neither the size key nor any block key. -/
theorem c2_counterexample :
    ¬ keyLt (rel_block_to_key ⟨1, 2, 3, 0⟩ 0xffffffff) (rel_size_to_key ⟨1, 2, 3, 0⟩) ∧
    ¬ inKeyRange (rel_key_range ⟨1, 2, 3, 0xff⟩) (rel_size_to_key ⟨1, 2, 3, 0xff⟩) := by
  decide

/-- Claim C2 (amended): for every relation tag `rel`, (a) for every block
number `blk < 0xFFFFFFFF`, `rel_block_to_key rel blk` is strictly below
`rel_size_to_key rel`, while at `blk = 0xFFFFFFFF` the two keys coincide; and
(b) provided `forknum < 0xFF`, the half-open range `rel_key_range rel` (whose
bounds differ only in `field5` being `forknum` versus `forknum + 1`) contains
`rel_block_to_key rel blk` for every `blk` and also contains
`rel_size_to_key rel`. -/
theorem c2_rel_keys_and_range (rel : RelTag) (blk : Nat) :
    (blk < 0xffffffff → keyLt (rel_block_to_key rel blk) (rel_size_to_key rel)) ∧
    rel_block_to_key rel 0xffffffff = rel_size_to_key rel ∧
    (rel.forknum < 0xff →
      inKeyRange (rel_key_range rel) (rel_block_to_key rel blk) ∧
      inKeyRange (rel_key_range rel) (rel_size_to_key rel)) := by
  refine ⟨?_, rfl, ?_⟩
  · intro h
    dsimp only [keyLt, rel_block_to_key, rel_size_to_key]
    omega
  · intro h
    dsimp only [inKeyRange, keyLe, keyLt, rel_key_range, rel_block_to_key,
      rel_size_to_key]
    simp only [Key.mk.injEq, true_and, and_true]
    omega

/-- Witness for C2 at a concrete relation tag and block number. -/
theorem c2_witness :
    keyLt (rel_block_to_key ⟨1, 2, 3, 0⟩ 5) (rel_size_to_key ⟨1, 2, 3, 0⟩) ∧
    inKeyRange (rel_key_range ⟨1, 2, 3, 0⟩) (rel_size_to_key ⟨1, 2, 3, 0⟩) :=
  ⟨(c2_rel_keys_and_range ⟨1, 2, 3, 0⟩ 5).1 (by norm_num),
   ((c2_rel_keys_and_range ⟨1, 2, 3, 0⟩ 5).2.2 (by norm_num)).2⟩

/-- Claim C4 (confirmed): the bounds of `slru_segment_key_range` carry `segno`
in `field3` with `field4 = 0`, whereas `slru_block_to_key` and
`slru_segment_size_to_key` carry `segno` in `field4` with `field3 = 1`; and
the range `drop_slru_segment` appends to the pending deletions is exactly the
`field3`-encoded `slru_segment_key_range`. -/
theorem c4_slru_segno_field_encoding (kind : SlruKind) (segno blknum : Nat) :
    (slru_segment_key_range kind segno).start.field3 = segno ∧
    (slru_segment_key_range kind segno).start.field4 = 0 ∧
    (slru_segment_key_range kind segno).stop.field3 = segno ∧
    (slru_segment_key_range kind segno).stop.field4 = 0 ∧
    (slru_block_to_key kind segno blknum).field3 = 1 ∧
    (slru_block_to_key kind segno blknum).field4 = segno ∧
    (slru_segment_size_to_key kind segno).field3 = 1 ∧
    (slru_segment_size_to_key kind segno).field4 = segno ∧
    (∀ (tl : Tline) (lastLsn : Nat) (st st' : WriterState),
      drop_slru_segment tl lastLsn st kind segno = some st' →
      st'.pendingDeletions = st.pendingDeletions ++ [slru_segment_key_range kind segno]) := by
  refine ⟨rfl, rfl, rfl, rfl, rfl, rfl, rfl, rfl, ?_⟩
  intro tl lastLsn st st' h
  rcases hg : writer_get tl lastLsn st (slru_dir_to_key kind) with _ | buf
  · simp [drop_slru_segment, hg] at h
  · rcases hd : desSlruSegmentDirectory buf with _ | segments
    · simp [drop_slru_segment, hg, hd] at h
    · simp only [drop_slru_segment, hg, hd, Option.some.injEq] at h
      subst h
      rfl

/-- Witness for C4 at a concrete SLRU kind, segment and writer state. -/
theorem c4_witness :
    ({ lsn := 0,
       pendingUpdates := [(slru_dir_to_key SlruKind.Clog,
         Value.Image (Blob.slruDir (({3} : Finset Nat).erase 3)))],
       pendingDeletions := [slru_segment_key_range SlruKind.Clog 3] } :
         WriterState).pendingDeletions =
      ([] : List KeyRange) ++ [slru_segment_key_range SlruKind.Clog 3] :=
  (c4_slru_segno_field_encoding SlruKind.Clog 3 5).2.2.2.2.2.2.2.2
    (fun k _ => if k = slru_dir_to_key SlruKind.Clog then
      some (Blob.slruDir {3}) else none)
    0 ⟨0, [], []⟩ _ (by decide)

/-- Claim C6 (confirmed): for every 32-bit `xid`, `twophase_key_range xid`
has lower bound `(2,0,0,0,0,xid)` and upper bound
`(2,0,0,0,f5', (xid+1) mod 2^32)` with `f5' = 1` exactly when
`xid = 0xFFFFFFFF`, and the upper bound is strictly greater than the lower
bound in the lexicographic key order. -/
theorem c6_twophase_key_range_bounds (xid : Nat) (h : xid < 2 ^ 32) :
    (twophase_key_range xid).start = ⟨0x02, 0, 0, 0, 0, xid⟩ ∧
    (twophase_key_range xid).stop =
      ⟨0x02, 0, 0, 0, if xid = 0xffffffff then 1 else 0, (xid + 1) % 2 ^ 32⟩ ∧
    keyLt (twophase_key_range xid).start (twophase_key_range xid).stop := by
  refine ⟨rfl, ?_, ?_⟩
  · dsimp only [twophase_key_range]
    rcases eq_or_ne xid 0xffffffff with he | hne
    · subst he; decide
    · rw [if_neg (show ¬ xid + 1 ≥ 2 ^ 32 by omega), if_neg hne]
  · dsimp only [twophase_key_range, keyLt]
    split_ifs with hc <;> omega

/-- Witness for C6 at the overflow point `xid = 0xFFFFFFFF`: the range is
non-empty. -/
theorem c6_witness :
    keyLt (twophase_key_range 0xffffffff).start (twophase_key_range 0xffffffff).stop :=
  (c6_twophase_key_range_bounds 0xffffffff (by norm_num)).2.2

/-! ## Claims about the transaction buffer's read path (C5, C10) -/

/-- Claim C5 (confirmed): `DatadirTimelineWriter::get` reads through the
buffer — a key pending as an `Image` returns that image, a key pending as a
`WalRecord` fails, and any other key falls back to the timeline at its
current last-record LSN. -/
theorem c5_writer_get_reads_through (tl : Tline) (lastLsn : Nat)
    (st : WriterState) (k : Key) :
    (∀ img, lookupKV st.pendingUpdates k = some (Value.Image img) →
      writer_get tl lastLsn st k = some img) ∧
    (∀ rec, lookupKV st.pendingUpdates k = some (Value.WalRecord rec) →
      writer_get tl lastLsn st k = none) ∧
    (lookupKV st.pendingUpdates k = none →
      writer_get tl lastLsn st k = tl k lastLsn) := by
  refine ⟨?_, ?_, ?_⟩
  · intro img h
    simp [writer_get, h]
  · intro r h
    simp [writer_get, h]
  · intro h
    simp [writer_get, h]

/-- Witness for C5 on a concrete buffer holding one image, one WAL record,
and nothing at a third key. -/
theorem c5_witness :
    writer_get (fun _ _ => some (Blob.raw [9])) 0
      ⟨0, [(DBDIR_KEY, Value.Image (Blob.raw [1])),
           (CHECKPOINT_KEY, Value.WalRecord 2)], []⟩ DBDIR_KEY = some (Blob.raw [1]) ∧
    writer_get (fun _ _ => some (Blob.raw [9])) 0
      ⟨0, [(DBDIR_KEY, Value.Image (Blob.raw [1])),
           (CHECKPOINT_KEY, Value.WalRecord 2)], []⟩ CHECKPOINT_KEY = none ∧
    writer_get (fun _ _ => some (Blob.raw [9])) 0
      ⟨0, [(DBDIR_KEY, Value.Image (Blob.raw [1])),
           (CHECKPOINT_KEY, Value.WalRecord 2)], []⟩ CONTROLFILE_KEY = some (Blob.raw [9]) :=
  ⟨(c5_writer_get_reads_through _ 0 _ DBDIR_KEY).1 (Blob.raw [1]) (by decide),
   (c5_writer_get_reads_through _ 0 _ CHECKPOINT_KEY).2.1 2 (by decide),
   (c5_writer_get_reads_through _ 0 _ CONTROLFILE_KEY).2.2 (by decide)⟩

/-- Claim C10 (confirmed): pending range deletions are never consulted by the
buffer's `get`: for a key with no pending update, even one lying inside a
range previously passed to `delete` on the same buffer, `get` still returns
the timeline value at the last-record LSN. -/
theorem c10_get_ignores_pending_deletions (tl : Tline) (lastLsn : Nat)
    (st : WriterState) (r : KeyRange) (k : Key)
    (hnopending : lookupKV st.pendingUpdates k = none)
    (_hinrange : inKeyRange r k) :
    writer_get tl lastLsn (writer_delete st r) k = tl k lastLsn ∧
    (writer_delete st r).pendingDeletions = st.pendingDeletions ++ [r] := by
  exact ⟨by simp [writer_get, writer_delete, hnopending], rfl⟩

/-- Witness for C10: a key deleted-by-range in the same buffer still reads
from the timeline. -/
theorem c10_witness :
    writer_get (fun _ _ => some (Blob.raw [7])) 5
      (writer_delete ⟨0, [], []⟩ (rel_key_range ⟨1, 2, 3, 0⟩))
      (rel_block_to_key ⟨1, 2, 3, 0⟩ 0) = some (Blob.raw [7]) :=
  (c10_get_ignores_pending_deletions (fun _ _ => some (Blob.raw [7])) 5
    ⟨0, [], []⟩ (rel_key_range ⟨1, 2, 3, 0⟩) (rel_block_to_key ⟨1, 2, 3, 0⟩ 0)
    (by decide) (by decide)).1

/-! ## Claim about the directory read-modify-write pattern (C3) -/

/-- Claim C3, counterexample: inserting `(0, 111)` into a `DbDirectory` that
already contains it via `put_relmap_file` *succeeds* (the claim says every
redundant directory insert fails with an `already exists` error). -/
theorem c3_counterexample :
    (0, 111) ∈ ({(0, 111)} : Finset (Nat × Nat)) ∧
    (put_relmap_file (fun _ _ => none) 0
      ⟨0, [(DBDIR_KEY, Value.Image (Blob.dbDir {(0, 111)}))], []⟩
      0 111 (Blob.raw [])).isSome = true := by
  decide

/-- Claim C3 (amended): of the four directory inserts, `put_rel_creation`,
`put_slru_segment_creation` and `put_twophase_file` fail with an
`already exists` error when the inserted entry is already present, but
`put_relmap_file` tolerates an existing `DbDirectory` entry: it succeeds and
merely skips re-writing the directory.  All four removals — `drop_dbdir`,
`put_rel_drop`, `drop_slru_segment` and `drop_twophase_file` — succeed when
the entry is missing (they warn and continue). -/
theorem c3_directory_insert_remove_pattern (tl : Tline) (lastLsn : Nat)
    (st : WriterState) :
    (∀ buf dbs spc db img, writer_get tl lastLsn st DBDIR_KEY = some buf →
      desDbDirectory buf = some dbs → (spc, db) ∈ dbs →
      put_relmap_file tl lastLsn st spc db img =
        some (writer_put st (relmap_file_key spc db) (Value.Image img))) ∧
    (∀ buf rels rel nblocks,
      writer_get tl lastLsn st (rel_dir_to_key rel.spcnode rel.dbnode) = some buf →
      desRelDirectory buf = some rels → (rel.relnode, rel.forknum) ∈ rels →
      put_rel_creation tl lastLsn st rel nblocks = none) ∧
    (∀ buf segments kind segno nblocks,
      writer_get tl lastLsn st (slru_dir_to_key kind) = some buf →
      desSlruSegmentDirectory buf = some segments → segno ∈ segments →
      put_slru_segment_creation tl lastLsn st kind segno nblocks = none) ∧
    (∀ buf xids xid img, writer_get tl lastLsn st TWOPHASEDIR_KEY = some buf →
      desTwoPhaseDirectory buf = some xids → xid ∈ xids →
      put_twophase_file tl lastLsn st xid img = none) ∧
    (∀ buf dbs spc db, writer_get tl lastLsn st DBDIR_KEY = some buf →
      desDbDirectory buf = some dbs → (spc, db) ∉ dbs →
      drop_dbdir tl lastLsn st spc db =
        some (writer_delete st (dbdir_key_range spc db))) ∧
    (∀ buf rels rel,
      writer_get tl lastLsn st (rel_dir_to_key rel.spcnode rel.dbnode) = some buf →
      desRelDirectory buf = some rels → (rel.relnode, rel.forknum) ∉ rels →
      put_rel_drop tl lastLsn st rel =
        some (writer_delete st (rel_key_range rel))) ∧
    (∀ buf segments kind segno,
      writer_get tl lastLsn st (slru_dir_to_key kind) = some buf →
      desSlruSegmentDirectory buf = some segments → segno ∉ segments →
      (drop_slru_segment tl lastLsn st kind segno).isSome = true) ∧
    (∀ buf xids xid, writer_get tl lastLsn st TWOPHASEDIR_KEY = some buf →
      desTwoPhaseDirectory buf = some xids → xid ∉ xids →
      (drop_twophase_file tl lastLsn st xid).isSome = true) := by
  refine ⟨?_, ?_, ?_, ?_, ?_, ?_, ?_, ?_⟩
  · intro buf dbs spc db img hg hd hmem
    simp [put_relmap_file, hg, hd, hmem]
  · intro buf rels rel nblocks hg hd hmem
    simp [put_rel_creation, hg, hd, hmem]
  · intro buf segments kind segno nblocks hg hd hmem
    simp [put_slru_segment_creation, hg, hd, hmem]
  · intro buf xids xid img hg hd hmem
    simp [put_twophase_file, hg, hd, hmem]
  · intro buf dbs spc db hg hd hmem
    simp [drop_dbdir, hg, hd, hmem]
  · intro buf rels rel hg hd hmem
    simp [put_rel_drop, hg, hd, hmem]
  · intro buf segments kind segno hg hd hmem
    simp [drop_slru_segment, hg, hd]
  · intro buf xids xid hg hd hmem
    simp [drop_twophase_file, hg, hd]

/-- Witness for C3 on a concrete timeline holding all four directories. -/
theorem c3_witness :
    put_relmap_file tlC3 0 ⟨8, [], []⟩ 0 111 (Blob.raw []) =
      some (writer_put ⟨8, [], []⟩ (relmap_file_key 0 111) (Value.Image (Blob.raw []))) ∧
    put_rel_creation tlC3 0 ⟨8, [], []⟩ ⟨0, 111, 1000, 0⟩ 1 = none ∧
    put_slru_segment_creation tlC3 0 ⟨8, [], []⟩ SlruKind.Clog 3 1 = none ∧
    put_twophase_file tlC3 0 ⟨8, [], []⟩ 7 (Blob.raw []) = none ∧
    drop_dbdir tlC3 0 ⟨8, [], []⟩ 5 6 =
      some (writer_delete ⟨8, [], []⟩ (dbdir_key_range 5 6)) ∧
    put_rel_drop tlC3 0 ⟨8, [], []⟩ ⟨0, 111, 2000, 0⟩ =
      some (writer_delete ⟨8, [], []⟩ (rel_key_range ⟨0, 111, 2000, 0⟩)) ∧
    (drop_slru_segment tlC3 0 ⟨8, [], []⟩ SlruKind.Clog 4).isSome = true ∧
    (drop_twophase_file tlC3 0 ⟨8, [], []⟩ 8).isSome = true :=
  have h := c3_directory_insert_remove_pattern tlC3 0 ⟨8, [], []⟩
  ⟨h.1 (Blob.dbDir {(0, 111)}) {(0, 111)} 0 111 (Blob.raw []) (by decide) rfl (by decide),
   h.2.1 (Blob.relDir {(1000, 0)}) {(1000, 0)} ⟨0, 111, 1000, 0⟩ 1 (by decide) rfl (by decide),
   h.2.2.1 (Blob.slruDir {3}) {3} SlruKind.Clog 3 1 (by decide) rfl (by decide),
   h.2.2.2.1 (Blob.twoPhaseDir {7}) {7} 7 (Blob.raw []) (by decide) rfl (by decide),
   h.2.2.2.2.1 (Blob.dbDir {(0, 111)}) {(0, 111)} 5 6 (by decide) rfl (by decide),
   h.2.2.2.2.2.1 (Blob.relDir {(1000, 0)}) {(1000, 0)} ⟨0, 111, 2000, 0⟩ (by decide) rfl (by decide),
   h.2.2.2.2.2.2.1 (Blob.slruDir {3}) {3} SlruKind.Clog 4 (by decide) rfl (by decide),
   h.2.2.2.2.2.2.2 (Blob.twoPhaseDir {7}) {7} 8 (by decide) rfl (by decide)⟩

/-! ## Claims about the relation read path (C1, C7) -/

/-- Helper: `get_rel_exists` reads exactly the rel-directory key. -/
theorem get_rel_existsT_trace (tl : Tline) (tag : RelTag) (lsn : Nat) :
    (get_rel_existsT tl tag lsn).2 = [rel_dir_to_key tag.spcnode tag.dbnode] := by
  rcases h : tl (rel_dir_to_key tag.spcnode tag.dbnode) lsn with _ | buf
  · simp [get_rel_existsT, h]
  · rcases hd : desRelDirectory buf with _ | rels <;> simp [get_rel_existsT, h, hd]

/-- Helper: the size-key read returns the little-endian decode of whatever the
timeline stores under the size key, and appends the size key to the trace. -/
theorem relSizeRead_eq (tl : Tline) (tag : RelTag) (lsn : Nat) (tr : List Key) :
    relSizeRead tl tag lsn tr =
      ((tl (rel_size_to_key tag) lsn).bind blobGetU32le,
        tr ++ [rel_size_to_key tag]) := by
  rcases h : tl (rel_size_to_key tag) lsn with _ | buf <;> simp [relSizeRead, h]

/-- Helper: every key read by `get_rel_size` is either the rel-directory key
(and then the fork is FSM or the visibility map) or the relation's size key. -/
theorem get_rel_sizeT_trace_mem (tl : Tline) (tag : RelTag) (lsn : Nat) (k : Key)
    (hk : k ∈ (get_rel_sizeT tl tag lsn).2) :
    (k = rel_dir_to_key tag.spcnode tag.dbnode ∧
      (tag.forknum = FSM_FORKNUM ∨ tag.forknum = VISIBILITYMAP_FORKNUM)) ∨
    k = rel_size_to_key tag := by
  by_cases hf : tag.forknum = FSM_FORKNUM ∨ tag.forknum = VISIBILITYMAP_FORKNUM
  · unfold get_rel_sizeT at hk
    rw [if_pos hf] at hk
    rcases hex : get_rel_existsT tl tag lsn with ⟨ob, tr⟩
    have htr : tr = [rel_dir_to_key tag.spcnode tag.dbnode] := by
      have h2 := get_rel_existsT_trace tl tag lsn
      rw [hex] at h2
      exact h2
    rw [hex] at hk
    rcases ob with _ | b
    · dsimp only at hk
      rw [htr] at hk
      simp at hk
      exact Or.inl ⟨hk, hf⟩
    · cases b
      · dsimp only at hk
        rw [htr] at hk
        simp at hk
        exact Or.inl ⟨hk, hf⟩
      · dsimp only at hk
        rw [relSizeRead_eq] at hk
        dsimp only at hk
        rw [htr] at hk
        simp at hk
        rcases hk with hk | hk
        · exact Or.inl ⟨hk, hf⟩
        · exact Or.inr hk
  · unfold get_rel_sizeT at hk
    rw [if_neg hf, relSizeRead_eq] at hk
    simp at hk
    exact Or.inr hk

/-- Claim C1, counterexample: at `blknum = 0xFFFFFFFF` the block key equals
the size key, which `get_rel_size` reads — so for a relation of size 5 the
read-beyond-EOF path returns the zero page yet a timeline read of
`rel_block_to_key(rel, blknum)` *was* issued (as the size-key read). -/
theorem c1_counterexample :
    (get_rel_sizeT tlC1 ⟨0, 0, 1000, 0⟩ 0).1 = some 5 ∧
    (get_rel_page_at_lsnT tlC1 ⟨0, 0, 1000, 0⟩ 0xffffffff 0).1 = some ZERO_PAGE ∧
    rel_block_to_key ⟨0, 0, 1000, 0⟩ 0xffffffff ∈
      (get_rel_page_at_lsnT tlC1 ⟨0, 0, 1000, 0⟩ 0xffffffff 0).2 := by
  exact ⟨rfl, rfl, by decide⟩

/-- Claim C1 (amended): whenever `get_rel_size(rel, lsn)` succeeds with value
`nblocks` and `blk ≥ nblocks`, `get_rel_page_at_lsn(rel, blk, lsn)` returns
the 8 KiB all-zeros page; and provided `blk < 0xFFFFFFFF` it issues no
timeline read of the block key `rel_block_to_key(rel, blk)` (at
`blk = 0xFFFFFFFF` the block key coincides with the size key, which
`get_rel_size` itself reads). -/
theorem c1_read_beyond_eof_zero_page (tl : Tline) (rel : RelTag)
    (blk lsn nblocks : Nat) (tr : List Key)
    (hsize : get_rel_sizeT tl rel lsn = (some nblocks, tr))
    (hbeyond : nblocks ≤ blk) :
    (get_rel_page_at_lsnT tl rel blk lsn).1 = some ZERO_PAGE ∧
    (blk < 0xffffffff →
      rel_block_to_key rel blk ∉ (get_rel_page_at_lsnT tl rel blk lsn).2) := by
  have hpage : get_rel_page_at_lsnT tl rel blk lsn = (some ZERO_PAGE, tr) := by
    unfold get_rel_page_at_lsnT
    rw [hsize]
    simp [hbeyond]
  rw [hpage]
  refine ⟨rfl, fun hblk hmem => ?_⟩
  have h := get_rel_sizeT_trace_mem tl rel lsn _ (by rw [hsize]; exact hmem)
  rcases h with ⟨heq, hfork⟩ | heq
  · have h5 := congrArg Key.field5 heq
    simp [rel_block_to_key, rel_dir_to_key] at h5
    simp only [FSM_FORKNUM, VISIBILITYMAP_FORKNUM] at hfork
    omega
  · have h6 := congrArg Key.field6 heq
    simp [rel_block_to_key, rel_size_to_key] at h6
    omega

/-- Witness for C1 at a concrete relation, block 7 of a 5-block relation. -/
theorem c1_witness :
    (get_rel_page_at_lsnT tlC1 ⟨0, 0, 1000, 0⟩ 7 0).1 = some ZERO_PAGE ∧
    rel_block_to_key ⟨0, 0, 1000, 0⟩ 7 ∉ (get_rel_page_at_lsnT tlC1 ⟨0, 0, 1000, 0⟩ 7 0).2 :=
  have h := c1_read_beyond_eof_zero_page tlC1 ⟨0, 0, 1000, 0⟩ 7 0 5
    [rel_size_to_key ⟨0, 0, 1000, 0⟩] rfl (by norm_num)
  ⟨h.1, h.2 (by norm_num)⟩

/-- Claim C7 (confirmed): for an FSM or visibility-map fork at an LSN where
`get_rel_exists` returns `false`, `get_rel_size` returns 0 without reading the
relation's size key; for all other forks, or when the relation exists,
`get_rel_size` reads the size key and returns its little-endian `u32`
value. -/
theorem c7_get_rel_size_fsm_tolerance (tl : Tline) (rel : RelTag) (lsn : Nat) :
    ((rel.forknum = FSM_FORKNUM ∨ rel.forknum = VISIBILITYMAP_FORKNUM) →
      (get_rel_existsT tl rel lsn).1 = some false →
      get_rel_sizeT tl rel lsn = (some 0, [rel_dir_to_key rel.spcnode rel.dbnode]) ∧
      rel_size_to_key rel ∉ (get_rel_sizeT tl rel lsn).2) ∧
    (∀ buf n, ((rel.forknum ≠ FSM_FORKNUM ∧ rel.forknum ≠ VISIBILITYMAP_FORKNUM) ∨
        (get_rel_existsT tl rel lsn).1 = some true) →
      tl (rel_size_to_key rel) lsn = some buf → blobGetU32le buf = some n →
      (get_rel_sizeT tl rel lsn).1 = some n ∧
      rel_size_to_key rel ∈ (get_rel_sizeT tl rel lsn).2) := by
  constructor
  · intro hf hex
    rcases hexx : get_rel_existsT tl rel lsn with ⟨ob, tr⟩
    have htr : tr = [rel_dir_to_key rel.spcnode rel.dbnode] := by
      have h2 := get_rel_existsT_trace tl rel lsn
      rw [hexx] at h2
      exact h2
    rw [hexx] at hex
    dsimp only at hex
    subst hex
    have hsz : get_rel_sizeT tl rel lsn = (some 0, tr) := by
      unfold get_rel_sizeT
      rw [if_pos hf, hexx]
    rw [hsz, htr]
    refine ⟨rfl, ?_⟩
    simp [rel_size_to_key, rel_dir_to_key, Key.mk.injEq]
  · intro buf n hcase hread hdec
    by_cases hf : rel.forknum = FSM_FORKNUM ∨ rel.forknum = VISIBILITYMAP_FORKNUM
    · have hex : (get_rel_existsT tl rel lsn).1 = some true := by
        rcases hcase with ⟨h1, h2⟩ | h
        · rcases hf with hf | hf
          · exact absurd hf h1
          · exact absurd hf h2
        · exact h
      rcases hexx : get_rel_existsT tl rel lsn with ⟨ob, tr⟩
      rw [hexx] at hex
      dsimp only at hex
      subst hex
      have hsz : get_rel_sizeT tl rel lsn = relSizeRead tl rel lsn tr := by
        unfold get_rel_sizeT
        rw [if_pos hf, hexx]
      rw [hsz, relSizeRead_eq]
      constructor
      · simp [hread, hdec]
      · simp
    · have hsz : get_rel_sizeT tl rel lsn = relSizeRead tl rel lsn [] := by
        unfold get_rel_sizeT
        rw [if_neg hf]
      rw [hsz, relSizeRead_eq]
      constructor
      · simp [hread, hdec]
      · simp

/-- Witness for C7: a missing FSM fork reports size 0 without a size-key
read, while the existing main fork reads its size key and reports 2. -/
theorem c7_witness :
    get_rel_sizeT tlC7 ⟨0, 111, 1000, 1⟩ 0 = (some 0, [rel_dir_to_key 0 111]) ∧
    (get_rel_sizeT tlC7 ⟨0, 111, 1000, 0⟩ 0).1 = some 2 ∧
    rel_size_to_key ⟨0, 111, 1000, 0⟩ ∈ (get_rel_sizeT tlC7 ⟨0, 111, 1000, 0⟩ 0).2 := by
  have h1 := (c7_get_rel_size_fsm_tolerance tlC7 ⟨0, 111, 1000, 1⟩ 0).1
    (Or.inl rfl) (by decide)
  have h2 := (c7_get_rel_size_fsm_tolerance tlC7 ⟨0, 111, 1000, 0⟩ 0).2
    (Blob.raw [2, 0, 0, 0]) 2 (Or.inl (by decide)) (by decide) (by decide)
  exact ⟨h1.1, h2.1, h2.2⟩

/-! ## Claim about image layer loading (C8) -/

/-- Claim C8 (confirmed): when the handle was built through the configured
tenant path and the SUMMARY and INDEX chapters are readable, the load fails
exactly when the deserialized summary differs from the summary derived from
the handle's own fields; when the handle comes from the bare-path debug
loader, the load succeeds whenever the INDEX chapter is readable, and a
file-name mismatch only raises the warning flag. -/
theorem c8_image_layer_load_summary_check (layer : ImageLayer) (book : Book)
    (ch : Chapter) (actualSummary : Summary) (ich : Chapter)
    (idx : List (Key × Nat)) :
    (layer.pathOrConf = PathOrConf.conf →
      book SUMMARY_CHAPTER = some ch → desSummary ch = some actualSummary →
      book INDEX_CHAPTER = some ich → desIndex ich = some idx →
      ((imageLayerLoad layer book).1 = none ↔
        actualSummary ≠ expectedSummary layer)) ∧
    (∀ fname layer2, imageLayerNewForPath fname book = some layer2 →
      book INDEX_CHAPTER = some ich → desIndex ich = some idx →
      (imageLayerLoad layer2 book).1 = some idx ∧
      ((imageLayerLoad layer2 book).2 = true ↔ fname ≠ layer_name layer2)) := by
  constructor
  · intro hconf hs hds hi hdi
    by_cases he : actualSummary = expectedSummary layer
    · simp [imageLayerLoad, hconf, hs, hds, hi, hdi, he]
    · simp [imageLayerLoad, hconf, hs, hds, he]
  · intro fname layer2 hnew hi hdi
    rcases hs : book SUMMARY_CHAPTER with _ | ch2
    · simp [imageLayerNewForPath, hs] at hnew
    · rcases hds2 : desSummary ch2 with _ | s
      · simp [imageLayerNewForPath, hs, hds2] at hnew
      · simp only [imageLayerNewForPath, hs, hds2, Option.some.injEq] at hnew
        subst hnew
        constructor
        · simp [imageLayerLoad, hi, hdi]
        · simp [imageLayerLoad, hi, hdi]

/-- Witness for C8 on a concrete bookfile: the conf-path load's failure is
equivalent to a summary mismatch (here there is none), and the bare-path load
succeeds despite its mismatched file name. -/
theorem c8_witness :
    ((imageLayerLoad layerC8 bookC8).1 = none ↔ sumC8 ≠ expectedSummary layerC8) ∧
    (imageLayerLoad layerC8p bookC8).1 = some [(⟨0, 0, 0, 0, 0, 3⟩, 0)] ∧
    ((imageLayerLoad layerC8p bookC8).2 = true ↔
      (⟨⟨⟨0, 0, 0, 0, 0, 0⟩, ⟨2, 0, 0, 0, 0, 0⟩⟩, 999⟩ : ImageFileName) ≠
        layer_name layerC8p) := by
  have h := c8_image_layer_load_summary_check layerC8 bookC8
    (Chapter.summaryCh sumC8) sumC8
    (Chapter.indexCh [(⟨0, 0, 0, 0, 0, 3⟩, 0)]) [(⟨0, 0, 0, 0, 0, 3⟩, 0)]
  have h2 := h.2 ⟨⟨⟨0, 0, 0, 0, 0, 0⟩, ⟨2, 0, 0, 0, 0, 0⟩⟩, 999⟩ layerC8p
    (by decide) rfl rfl
  exact ⟨h.1 rfl rfl rfl rfl rfl, h2.1, h2.2⟩

/-! ## Claim about the checkpoint loop (C9) -/

/-- Claim C9, counterexample: with a tenant that is `Active` at instant 0 but
not at instant 1 and a checkpoint period of 1, the loop still invokes
`checkpoint_iteration` at instant 1 — the state observed after the sleep is
not `Active`, yet a checkpoint happens (the state is only checked before the
sleep). -/
theorem c9_counterexample :
    (1, LoopAction.checkpoint 10) ∈ checkpoint_loop (fun t => t == 0) 1 10 0 1 ∧
    (fun t => t == 0) 1 = false := by
  decide

/-- Claim C9 (amended): each iteration observes the tenant state at the top
of the loop: if it is not `Active` the loop exits at once without
checkpointing; otherwise it sleeps for `checkpoint_period` and then calls
`checkpoint_iteration(Distance(checkpoint_distance))` unconditionally — so a
checkpoint at instant `τ` implies the state was `Active` at `τ - period`,
before the sleep, and the state is not re-observed after the sleep. -/
theorem c9_checkpoint_loop_order (state : Nat → Bool)
    (period distance t fuel : Nat) :
    (state t = false → checkpoint_loop state period distance t (fuel + 1) =
      [(t, LoopAction.checkState false)]) ∧
    (∀ τ d, (τ, LoopAction.checkpoint d) ∈ checkpoint_loop state period distance t fuel →
      d = distance ∧ period ≤ τ ∧ state (τ - period) = true) := by
  constructor
  · intro hs
    unfold checkpoint_loop
    simp [hs]
  · induction fuel generalizing t with
    | zero =>
      intro τ d h
      simp [checkpoint_loop] at h
    | succ n ih =>
      intro τ d h
      unfold checkpoint_loop at h
      by_cases hs : state t
      · rw [if_pos hs] at h
        simp only [List.mem_cons] at h
        rcases h with h | h | h
        · simp at h
        · simp only [Prod.mk.injEq, LoopAction.checkpoint.injEq] at h
          obtain ⟨h1, h2⟩ := h
          subst h1
          subst h2
          refine ⟨rfl, by omega, ?_⟩
          have hτ : t + period - period = t := by omega
          rw [hτ]
          exact hs
        · exact ih (t + period) τ d h
      · rw [if_neg hs] at h
        simp at h

/-- Witness for C9: an inactive tenant exits the loop at once, and a
checkpoint event implies the pre-sleep state was `Active`. -/
theorem c9_witness :
    checkpoint_loop (fun _ => false) 1 10 0 1 = [(0, LoopAction.checkState false)] ∧
    (10 = 10 ∧ 1 ≤ 1 ∧ (fun (_ : Nat) => true) (1 - 1) = true) :=
  ⟨(c9_checkpoint_loop_order (fun _ => false) 1 10 0 0).1 rfl,
   (c9_checkpoint_loop_order (fun _ => true) 1 10 0 1).2 1 10 (by decide)⟩
